import Mathlib

/-!
Shallow embedding of the two image scripts of this repository:
`scripts/generate-og-image.py` (Open Graph image generator) and
`scripts/optimize-images.py` (batch image optimizer).

The imaging library (PIL/Pillow) and the filesystem are external to the
repository, so they are modelled abstractly:
an in-memory image is a mode string, a width, a height, a row-major list
of pixels (each pixel a list of channel values) and a metadata list
(EXIF/ICC entries); the filesystem maps paths to file contents, where a
file content records its byte size, the image it decodes to, and the
save parameters it was encoded with; the actual byte-level codecs are
environment parameters returning the encoded byte count.
All side effects (writes, prints, exits) are made explicit: functions
return the updated filesystem, the list of printed messages and, for the
scripts, the exit code; Python exceptions are `Except` errors.
-/

abbrev PathStr := String

abbrev Pixel := List Nat

structure PILImage where
  mode : String
  width : Nat
  height : Nat
  data : List Pixel
  info : List (String × String)
deriving DecidableEq, Repr

/-- Save parameters handed to `Image.save`, one constructor per format
used by the scripts. -/
inductive SaveParams where
  | png (optimize : Bool) (compress_level : Nat)
  | jpeg (quality : Nat) (optimize : Bool) (progressive : Bool)
  | webp (quality : Nat) (method : Nat)
deriving DecidableEq, Repr

def SaveParams.progressiveFlag : SaveParams → Bool
  | SaveParams.jpeg _ _ p => p
  | _ => false

structure FileContent where
  size : Nat
  image : PILImage
  params : SaveParams
deriving DecidableEq, Repr

/-- The filesystem: a map from paths to file contents (`none` = the file
does not exist). -/
abbrev FS := PathStr → Option FileContent

/-- Python exceptions relevant to the two scripts. -/
inductive PyErr where
  | importError
  | fileNotFound (p : PathStr)
  | nameError
  | other (msg : String)
deriving DecidableEq, Repr

/-- A font handle: `ImageFont.truetype(path, size)` or
`ImageFont.load_default()`. -/
inductive Font where
  | truetype (path : PathStr) (size : Nat)
  | defaultFont
deriving DecidableEq, Repr

/-- One printed line, one constructor per `print` in the scripts, carrying
the dynamic parts of the formatted string.  `traceback` stands for the
interpreter's unhandled-exception report. -/
inductive OutMsg where
  | createdImage (path : PathStr)
  | dimensions (w h : Nat)
  | fileSize (kb : Rat)
  | warnExceeds300KB
  | sizeWithinLimits
  | errorPILMissing
  | installHint
  | errorCreating (e : PyErr)
  | traceback (e : PyErr)
  | optimizing (path : PathStr)
  | originalBytes (n : Nat)
  | optimizedBytes (n : Nat)
  | savedBytes (savings : Int) (percent : Rat)
  | skippingNotFound (path : PathStr)
  | totalSaved (bytes : Int) (kb : Rat)
  | allOptimized
  | blank
deriving DecidableEq, Repr

/-- `Image.new(mode, (width, height), color)`: a fresh canvas filled with
one color and carrying no metadata. -/
def pilNew (mode : String) (width height : Nat) (color : Pixel) : PILImage :=
  { mode := mode, width := width, height := height,
    data := List.replicate (width * height) color, info := [] }

/-- Channel count of a PIL mode (only the modes the scripts touch). -/
def modeChannels (m : String) : Nat :=
  if m = "RGB" then 3 else if m = "RGBA" then 4 else if m = "LA" then 2 else 1

/-- The default fill of `Image.new` without a color argument: black. -/
def zeroPixel (mode : String) : Pixel := List.replicate (modeChannels mode) 0

/-- `img.putdata(data)`: overwrite the pixel buffer from the start; if
`data` is shorter than the buffer the tail keeps its old pixels. -/
def putdata (img : PILImage) (data : List Pixel) : PILImage :=
  { img with data := data.take (img.width * img.height) ++ img.data.drop data.length }

/-! ## Generator: `scripts/generate-og-image.py` -/

def WIDTH : Nat := 1200

def HEIGHT : Nat := 630

def BACKGROUND_COLOR : Pixel := [15, 23, 42]

def PRIMARY_COLOR : Pixel := [148, 163, 184]

def ACCENT_COLOR : Pixel := [99, 102, 241]

def TEXT_COLOR : Pixel := [241, 245, 249]

/-- `draw.rectangle([x0, y0, x1, y1], fill)`: fill every canvas pixel with
`x0 ≤ x ≤ x1` and `y0 ≤ y ≤ y1` (PIL's rectangle is inclusive of the
lower-right corner and clips to the canvas). -/
def drawRectangle (img : PILImage) (x0 y0 x1 y1 : Int) (fill : Pixel) : PILImage :=
  { img with data := img.data.mapIdx (fun i p =>
      let x : Int := Int.ofNat (i % img.width)
      let y : Int := Int.ofNat (i / img.width)
      if x0 ≤ x ∧ x ≤ x1 ∧ y0 ≤ y ∧ y ≤ y1 then fill else p) }

/-- Set one pixel, clipping writes outside the canvas. -/
def setPixel (img : PILImage) (x y : Int) (c : Pixel) : PILImage :=
  if 0 ≤ x ∧ x < (img.width : Int) ∧ 0 ≤ y ∧ y < (img.height : Int) then
    { img with data := img.data.set (y.toNat * img.width + x.toNat) c }
  else img

/-- `draw.textbbox((0, 0), text, font)`: the glyph bounding box. -/
structure BBox where
  x0 : Int
  y0 : Int
  x1 : Int
  y1 : Int
deriving DecidableEq, Repr

/-- Environment of the generator: the pieces external to the script
(filesystem font probes, the font rasterizer, the JPEG encoder and the
location of the script).  `truetypeOk p s = false` models
`ImageFont.truetype(p, s)` raising.  `glyphs` gives, for a string and a
font, the covered pixel offsets when the text is drawn at the origin.
`encode` returns the byte size of the encoded file, or an error when
saving raises. -/
structure GenEnv where
  pathExists : PathStr → Bool
  truetypeOk : PathStr → Nat → Bool
  textbbox : String → Font → BBox
  glyphs : String → Font → List (Int × Int)
  encode : PILImage → SaveParams → Except PyErr Nat
  projectRoot : String

/-- `draw.text(xy, text, font, fill)`: stamp the glyph pixels. -/
def drawText (env : GenEnv) (img : PILImage) (xy : Int × Int) (text : String)
    (font : Font) (fill : Pixel) : PILImage :=
  (env.glyphs text font).foldl (fun im q => setPixel im (xy.1 + q.1) (xy.2 + q.2) fill) img

def font_paths : List PathStr :=
  ["/System/Library/Fonts/Supplemental/Arial Bold.ttf",
   "/usr/share/fonts/truetype/dejavu/DejaVuSans-Bold.ttf",
   "C:\\Windows\\Fonts\\arialbd.ttf"]

/-- Font selection of `create_og_image` (lines 27-52): walk `font_paths`,
load the first existing path at sizes 80 and 40 and stop; if no path
exists, or either `truetype` call raises (the whole `try` block is
guarded), both fonts fall back to `ImageFont.load_default()`. -/
def selectFonts (env : GenEnv) : Font × Font :=
  match font_paths.find? env.pathExists with
  | some font_path =>
    if env.truetypeOk font_path 80 then
      if env.truetypeOk font_path 40 then
        (Font.truetype font_path 80, Font.truetype font_path 40)
      else (Font.defaultFont, Font.defaultFont)
    else (Font.defaultFont, Font.defaultFont)
  | none => (Font.defaultFont, Font.defaultFont)

/-- `os.path.join(os.path.dirname(os.path.dirname(__file__)), 'public',
'cache-mcclure-og.jpg')`: the fixed output path under the project root. -/
def og_output_path (env : GenEnv) : PathStr :=
  env.projectRoot ++ "/public/cache-mcclure-og.jpg"

/-- The canvas built by `create_og_image` before saving: background fill,
two accent bars, four L-shaped corner accents, centered title and
subtitle. -/
def ogImage (env : GenEnv) : PILImage :=
  let img := pilNew "RGB" WIDTH HEIGHT BACKGROUND_COLOR
  let fonts := selectFonts env
  let title_font := fonts.1
  let subtitle_font := fonts.2
  let line_y1 : Int := (HEIGHT : Int) / 2 - 120
  let img := drawRectangle img 100 line_y1 1100 (line_y1 + 4) ACCENT_COLOR
  let line_y2 : Int := (HEIGHT : Int) / 2 + 120
  let img := drawRectangle img 100 line_y2 1100 (line_y2 + 4) ACCENT_COLOR
  let corner_size : Int := 40
  let corner_thickness : Int := 4
  let img := drawRectangle img 80 80 (80 + corner_size) (80 + corner_thickness) ACCENT_COLOR
  let img := drawRectangle img 80 80 (80 + corner_thickness) (80 + corner_size) ACCENT_COLOR
  let img := drawRectangle img ((WIDTH : Int) - 80 - corner_size) 80 ((WIDTH : Int) - 80) (80 + corner_thickness) ACCENT_COLOR
  let img := drawRectangle img ((WIDTH : Int) - 80 - corner_thickness) 80 ((WIDTH : Int) - 80) (80 + corner_size) ACCENT_COLOR
  let img := drawRectangle img 80 ((HEIGHT : Int) - 80 - corner_thickness) (80 + corner_size) ((HEIGHT : Int) - 80) ACCENT_COLOR
  let img := drawRectangle img 80 ((HEIGHT : Int) - 80 - corner_size) (80 + corner_thickness) ((HEIGHT : Int) - 80) ACCENT_COLOR
  let img := drawRectangle img ((WIDTH : Int) - 80 - corner_size) ((HEIGHT : Int) - 80 - corner_thickness) ((WIDTH : Int) - 80) ((HEIGHT : Int) - 80) ACCENT_COLOR
  let img := drawRectangle img ((WIDTH : Int) - 80 - corner_thickness) ((HEIGHT : Int) - 80 - corner_size) ((WIDTH : Int) - 80) ((HEIGHT : Int) - 80) ACCENT_COLOR
  let title := "CACHE McCLURE"
  let subtitle := "Science Fiction Author"
  let title_bbox := env.textbbox title title_font
  let title_width := title_bbox.x1 - title_bbox.x0
  let title_x := Int.fdiv ((WIDTH : Int) - title_width) 2
  let title_y : Int := (HEIGHT : Int) / 2 - 50
  let subtitle_bbox := env.textbbox subtitle subtitle_font
  let subtitle_width := subtitle_bbox.x1 - subtitle_bbox.x0
  let subtitle_x := Int.fdiv ((WIDTH : Int) - subtitle_width) 2
  let subtitle_y : Int := (HEIGHT : Int) / 2 + 20
  let img := drawText env img (title_x, title_y) title title_font TEXT_COLOR
  let img := drawText env img (subtitle_x, subtitle_y) subtitle subtitle_font PRIMARY_COLOR
  img

/-- `create_og_image()`: build the canvas, save it as
`img.save(output_path, 'JPEG', quality=90, optimize=True)` (the
`progressive` flag is not passed and defaults to off), then report path,
dimensions and file size, warning when the size in KB exceeds 300
(Python computes `file_size / 1024` with exact binary floats; `Rat` is
used here).  Returns the updated filesystem and the printed lines, or
the exception raised while saving. -/
def create_og_image (env : GenEnv) (fs : FS) : Except PyErr (FS × List OutMsg) :=
  let img := ogImage env
  let output_path := og_output_path env
  match env.encode img (SaveParams.jpeg 90 true false) with
  | Except.error e => Except.error e
  | Except.ok encodedSize =>
    let fs' : FS := fun p =>
      if p = output_path then
        some { size := encodedSize, image := img, params := SaveParams.jpeg 90 true false }
      else fs p
    let file_size := encodedSize
    let file_size_kb : Rat := (file_size : Rat) / 1024
    let out := [OutMsg.createdImage output_path, OutMsg.dimensions WIDTH HEIGHT,
        OutMsg.fileSize file_size_kb]
      ++ (if file_size_kb > 300 then [OutMsg.warnExceeds300KB] else [OutMsg.sizeWithinLimits])
    Except.ok (fs', out)

/-- Running `scripts/generate-og-image.py` as a script.  When Pillow is
missing, the module-level `from PIL import Image, ImageDraw, ImageFont`
(line 7) raises before the `try`/`except` in `__main__` is reached, so
the interpreter prints an unhandled-exception traceback and exits 1.
Otherwise `__main__` runs `create_og_image()` under its handlers:
`except ImportError` prints the install hint and exits 1, any other
exception prints the error and exits 1, success exits 0. -/
def runGeneratorScript (pilAvailable : Bool) (env : GenEnv) (fs : FS) :
    FS × List OutMsg × Nat :=
  if pilAvailable then
    match create_og_image env fs with
    | Except.ok (fs', out) => (fs', out, 0)
    | Except.error PyErr.importError => (fs, [OutMsg.errorPILMissing, OutMsg.installHint], 1)
    | Except.error e => (fs, [OutMsg.errorCreating e], 1)
  else
    (fs, [OutMsg.traceback PyErr.importError], 1)

/-! ## Optimizer: `scripts/optimize-images.py` -/

/-- Environment of the optimizer: the PIL pieces external to the script.
`encode` returns the byte size of the encoded file (or the exception
raised while saving); `openImage` decodes a file (or raises, e.g. on a
corrupt file); `convertRGBA` is `img.convert('RGBA')` for palette
images, whose palette lookup lives inside PIL. -/
structure OptEnv where
  encode : PILImage → SaveParams → Except PyErr Nat
  openImage : PathStr → FileContent → Except PyErr PILImage
  convertRGBA : PILImage → PILImage

/-- Result of one successful `optimize_*` call: the filesystem after the
in-place rewrite, the lines printed, and the returned `new_size`. -/
structure OptResult where
  fs : FS
  out : List OutMsg
  newSize : Nat

/-- An `optimize_*` call either returns a result or raises; a raised
error carries the filesystem at the raise point (a failed save leaves
the file untouched; a division by zero happens after the write) and the
lines printed before raising. -/
abbrev OptM := Except (PyErr × FS × List OutMsg) OptResult

/-- The three report lines each `optimize_*` function prints after
saving.  Python computes `savings_percent = (savings / original_size) *
100` with true division; `Rat` is used here, and the
`original_size = 0` division error is raised by the callers before
reaching this point. -/
def savingsLines (original_size new_size : Nat) : List OutMsg :=
  [OutMsg.originalBytes original_size, OutMsg.optimizedBytes new_size,
   OutMsg.savedBytes ((original_size : Int) - (new_size : Int))
     ((((original_size : Int) - (new_size : Int) : Int) : Rat) / (original_size : Rat) * 100)]

/-- `optimize_png(input_path, output_path=None, quality=85)`: note the
`quality` parameter is accepted but never used — the save call passes
only `format='PNG', optimize=True, compress_level=9`. -/
def optimize_png (env : OptEnv) (fs : FS) (input_path : PathStr)
    (output_path : Option PathStr) (quality : Nat) : OptM :=
  let _ := quality
  let out_path := output_path.getD input_path
  let out := [OutMsg.optimizing input_path]
  match fs input_path with
  | none => Except.error (PyErr.fileNotFound input_path, fs, out)
  | some fc =>
    let original_size := fc.size
    match env.openImage input_path fc with
    | Except.error e => Except.error (e, fs, out)
    | Except.ok img =>
      let data := img.data
      let image_without_exif :=
        putdata (pilNew img.mode img.width img.height (zeroPixel img.mode)) data
      match env.encode image_without_exif (SaveParams.png true 9) with
      | Except.error e => Except.error (e, fs, out)
      | Except.ok encodedSize =>
        let fs' : FS := fun p =>
          if p = out_path then
            some { size := encodedSize, image := image_without_exif,
                   params := SaveParams.png true 9 }
          else fs p
        let new_size := encodedSize
        if original_size = 0 then
          Except.error (PyErr.other "ZeroDivisionError", fs', out)
        else
          Except.ok { fs := fs', out := out ++ savingsLines original_size new_size,
                      newSize := new_size }

/-- `img.split()[-1]`: the last band (the alpha channel of an RGBA or LA
image). -/
def alphaBand (img : PILImage) : List Nat := img.data.map (fun px => px.getLastD 0)

/-- Pixel-format conversion PIL applies when pasting a foreign-mode image
into an RGB canvas: RGBA drops its alpha, LA replicates its luminance. -/
def toRGB (mode : String) (px : Pixel) : Pixel :=
  if mode = "RGBA" then px.take 3
  else if mode = "LA" then
    match px with
    | l :: _ => [l, l, l]
    | [] => []
  else px

/-- Per-channel alpha blend of `rgb_img.paste(img, mask=m)`: mask 0 keeps
the background, mask 255 takes the source. -/
def blendPixel (b s : Pixel) (a : Nat) : Pixel :=
  (b.zip s).map (fun q => (q.1 * (255 - a) + q.2 * a) / 255)

/-- `bg.paste(src, mask)` over the whole canvas: without a mask the
source overwrites the background, with a mask each pixel is blended. -/
def pasteWithMask (bg src : PILImage) (mask : Option (List Nat)) : PILImage :=
  { bg with data := (List.range (bg.width * bg.height)).map (fun i =>
      let s := toRGB src.mode (src.data.getD i [])
      match mask with
      | none => s
      | some m => blendPixel (bg.data.getD i []) s (m.getD i 0)) }

/-- Lines 74-80 of `optimize_jpg`: for an RGBA, LA or P source build an
opaque white RGB canvas, convert a palette image to RGBA first, and
paste the source using its own alpha band as the mask (after the P →
RGBA conversion the reassigned `img` is RGBA, so the mask branch also
fires for palette sources). -/
def flattenForJPEG (env : OptEnv) (img : PILImage) : PILImage :=
  if img.mode ∈ ["RGBA", "LA", "P"] then
    let rgb_img := pilNew "RGB" img.width img.height [255, 255, 255]
    let img2 := if img.mode = "P" then env.convertRGBA img else img
    let mask :=
      if img2.mode ∈ (["RGBA", "LA"] : List String) then some (alphaBand img2) else none
    pasteWithMask rgb_img img2 mask
  else img

/-- The image whose alpha band serves as the paste mask inside
`flattenForJPEG`: the source itself, or its RGBA conversion for a
palette source. -/
def maskImage (env : OptEnv) (img : PILImage) : PILImage :=
  if img.mode = "P" then env.convertRGBA img else img

/-- `optimize_jpg(input_path, output_path=None, quality=85)`: flatten
alpha/palette sources onto white, rebuild from raw pixel data, save as
`format='JPEG', quality=quality, optimize=True, progressive=True`. -/
def optimize_jpg (env : OptEnv) (fs : FS) (input_path : PathStr)
    (output_path : Option PathStr) (quality : Nat) : OptM :=
  let out_path := output_path.getD input_path
  let out := [OutMsg.optimizing input_path]
  match fs input_path with
  | none => Except.error (PyErr.fileNotFound input_path, fs, out)
  | some fc =>
    let original_size := fc.size
    match env.openImage input_path fc with
    | Except.error e => Except.error (e, fs, out)
    | Except.ok img0 =>
      let img := flattenForJPEG env img0
      let data := img.data
      let image_without_exif :=
        putdata (pilNew img.mode img.width img.height (zeroPixel img.mode)) data
      match env.encode image_without_exif (SaveParams.jpeg quality true true) with
      | Except.error e => Except.error (e, fs, out)
      | Except.ok encodedSize =>
        let fs' : FS := fun p =>
          if p = out_path then
            some { size := encodedSize, image := image_without_exif,
                   params := SaveParams.jpeg quality true true }
          else fs p
        let new_size := encodedSize
        if original_size = 0 then
          Except.error (PyErr.other "ZeroDivisionError", fs', out)
        else
          Except.ok { fs := fs', out := out ++ savingsLines original_size new_size,
                      newSize := new_size }

/-- `optimize_webp(input_path, output_path=None, quality=85)`: rebuild
from raw pixel data, save as `format='WEBP', quality=quality, method=6`. -/
def optimize_webp (env : OptEnv) (fs : FS) (input_path : PathStr)
    (output_path : Option PathStr) (quality : Nat) : OptM :=
  let out_path := output_path.getD input_path
  let out := [OutMsg.optimizing input_path]
  match fs input_path with
  | none => Except.error (PyErr.fileNotFound input_path, fs, out)
  | some fc =>
    let original_size := fc.size
    match env.openImage input_path fc with
    | Except.error e => Except.error (e, fs, out)
    | Except.ok img =>
      let data := img.data
      let image_without_exif :=
        putdata (pilNew img.mode img.width img.height (zeroPixel img.mode)) data
      match env.encode image_without_exif (SaveParams.webp quality 6) with
      | Except.error e => Except.error (e, fs, out)
      | Except.ok encodedSize =>
        let fs' : FS := fun p =>
          if p = out_path then
            some { size := encodedSize, image := image_without_exif,
                   params := SaveParams.webp quality 6 }
          else fs p
        let new_size := encodedSize
        if original_size = 0 then
          Except.error (PyErr.other "ZeroDivisionError", fs', out)
        else
          Except.ok { fs := fs', out := out ++ savingsLines original_size new_size,
                      newSize := new_size }

/-- The fixed five-entry worklist of `main()`. -/
def images_to_optimize : List (PathStr × String) :=
  [("src/assets/covers/fracture-engine.png", "png"),
   ("public/covers/fracture-engine.png", "png"),
   ("src/assets/covers/fracture-engine.webp", "webp"),
   ("public/covers/fracture-engine.webp", "webp"),
   ("public/cache-mcclure-og.jpg", "jpg")]

/-- The `if`/`elif` dispatch in the loop body of `main()`: PNGs keep the
default quality 85, JPEG and WEBP are called with `quality=90`, always
in-place (`output_path=None`).  A format outside the three branches
would leave `new_size` unbound and make the following `total_saved`
line raise (`NameError` on the first such entry); the fixed worklist
never reaches that branch. -/
def dispatchOptimize (env : OptEnv) (fs : FS) (image_path : PathStr)
    (format_type : String) : OptM :=
  if format_type = "png" then optimize_png env fs image_path none 85
  else if format_type = "jpg" then optimize_jpg env fs image_path none 90
  else if format_type = "webp" then optimize_webp env fs image_path none 90
  else Except.error (PyErr.nameError, fs, [])

/-- State of a `main()` run: final filesystem, printed lines, the
`total_saved` accumulator and, when an exception escaped the loop, the
unhandled error. -/
structure RunState where
  fs : FS
  out : List OutMsg
  tot : Int
  err : Option PyErr

/-- The `for image_path, format_type in images_to_optimize` loop of
`main()`: a missing file is skipped with a message, otherwise the file
is optimized and `total_saved += original_size - new_size` (sizes read
before and after the in-place rewrite); an exception aborts the loop and
propagates. -/
def processImages (env : OptEnv) (entries : List (PathStr × String)) (fs : FS) : RunState :=
  match entries with
  | [] => { fs := fs, out := [], tot := 0, err := none }
  | (image_path, format_type) :: rest =>
    match fs image_path with
    | none =>
      let r := processImages env rest fs
      { r with out := OutMsg.skippingNotFound image_path :: r.out }
    | some fc =>
      let original_size := fc.size
      match dispatchOptimize env fs image_path format_type with
      | Except.error (e, efs, eout) => { fs := efs, out := eout, tot := 0, err := some e }
      | Except.ok res =>
        let r := processImages env rest res.fs
        { fs := r.fs, out := res.out ++ OutMsg.blank :: r.out,
          tot := ((original_size : Int) - (res.newSize : Int)) + r.tot, err := r.err }

/-- `main()`: run the loop over the fixed worklist; only when no
exception escaped are the grand total (`total_saved / 1024` KB, true
division) and the closing line printed. -/
def mainOpt (env : OptEnv) (fs : FS) : RunState :=
  let r := processImages env images_to_optimize fs
  match r.err with
  | some _ => r
  | none =>
    { r with out := r.out ++
        [OutMsg.totalSaved r.tot ((r.tot : Rat) / 1024), OutMsg.allOptimized] }

/-! ## Generator lemmas -/

lemma drawRectangle_mode (img : PILImage) (x0 y0 x1 y1 : Int) (fill : Pixel) :
    (drawRectangle img x0 y0 x1 y1 fill).mode = img.mode := rfl

lemma drawRectangle_width (img : PILImage) (x0 y0 x1 y1 : Int) (fill : Pixel) :
    (drawRectangle img x0 y0 x1 y1 fill).width = img.width := rfl

lemma drawRectangle_height (img : PILImage) (x0 y0 x1 y1 : Int) (fill : Pixel) :
    (drawRectangle img x0 y0 x1 y1 fill).height = img.height := rfl

lemma setPixel_mode (img : PILImage) (x y : Int) (c : Pixel) :
    (setPixel img x y c).mode = img.mode := by
  simp only [setPixel]; split <;> rfl

lemma setPixel_width (img : PILImage) (x y : Int) (c : Pixel) :
    (setPixel img x y c).width = img.width := by
  simp only [setPixel]; split <;> rfl

lemma setPixel_height (img : PILImage) (x y : Int) (c : Pixel) :
    (setPixel img x y c).height = img.height := by
  simp only [setPixel]; split <;> rfl

lemma foldl_setPixel_mode (l : List (Int × Int)) (img : PILImage) (xy : Int × Int)
    (fill : Pixel) :
    (l.foldl (fun im q => setPixel im (xy.1 + q.1) (xy.2 + q.2) fill) img).mode = img.mode := by
  induction l generalizing img with
  | nil => rfl
  | cons q t ih => rw [List.foldl_cons, ih, setPixel_mode]

lemma foldl_setPixel_width (l : List (Int × Int)) (img : PILImage) (xy : Int × Int)
    (fill : Pixel) :
    (l.foldl (fun im q => setPixel im (xy.1 + q.1) (xy.2 + q.2) fill) img).width = img.width := by
  induction l generalizing img with
  | nil => rfl
  | cons q t ih => rw [List.foldl_cons, ih, setPixel_width]

lemma foldl_setPixel_height (l : List (Int × Int)) (img : PILImage) (xy : Int × Int)
    (fill : Pixel) :
    (l.foldl (fun im q => setPixel im (xy.1 + q.1) (xy.2 + q.2) fill) img).height = img.height := by
  induction l generalizing img with
  | nil => rfl
  | cons q t ih => rw [List.foldl_cons, ih, setPixel_height]

lemma drawText_mode (env : GenEnv) (img : PILImage) (xy : Int × Int) (text : String)
    (font : Font) (fill : Pixel) : (drawText env img xy text font fill).mode = img.mode :=
  foldl_setPixel_mode _ _ _ _

lemma drawText_width (env : GenEnv) (img : PILImage) (xy : Int × Int) (text : String)
    (font : Font) (fill : Pixel) : (drawText env img xy text font fill).width = img.width :=
  foldl_setPixel_width _ _ _ _

lemma drawText_height (env : GenEnv) (img : PILImage) (xy : Int × Int) (text : String)
    (font : Font) (fill : Pixel) : (drawText env img xy text font fill).height = img.height :=
  foldl_setPixel_height _ _ _ _

lemma ogImage_mode (env : GenEnv) : (ogImage env).mode = "RGB" := by
  simp [ogImage, drawText_mode, drawRectangle_mode, pilNew]

lemma ogImage_width (env : GenEnv) : (ogImage env).width = 1200 := by
  simp [ogImage, drawText_width, drawRectangle_width, pilNew, WIDTH]

lemma ogImage_height (env : GenEnv) : (ogImage env).height = 630 := by
  simp [ogImage, drawText_height, drawRectangle_height, pilNew, HEIGHT]

lemma create_og_image_ok (env : GenEnv) (fs fs' : FS) (out : List OutMsg)
    (h : create_og_image env fs = Except.ok (fs', out)) :
    ∃ n, env.encode (ogImage env) (SaveParams.jpeg 90 true false) = Except.ok n ∧
      fs' = (fun p => if p = og_output_path env then
               some { size := n, image := ogImage env, params := SaveParams.jpeg 90 true false }
             else fs p) ∧
      out = [OutMsg.createdImage (og_output_path env), OutMsg.dimensions WIDTH HEIGHT,
             OutMsg.fileSize ((n : Rat) / 1024)]
        ++ (if ((n : Rat) / 1024) > 300 then [OutMsg.warnExceeds300KB]
            else [OutMsg.sizeWithinLimits]) := by
  simp only [create_og_image] at h
  cases henc : env.encode (ogImage env) (SaveParams.jpeg 90 true false) with
  | error e => rw [henc] at h; exact absurd h (by simp)
  | ok n =>
    rw [henc] at h
    simp only [Except.ok.injEq, Prod.mk.injEq] at h
    exact ⟨n, rfl, h.1.symm, h.2.symm⟩

lemma kb_gt_iff (n : Nat) : ((n : Rat) / 1024 > 300) ↔ 307200 < n := by
  rw [gt_iff_lt, lt_div_iff₀ (by norm_num : (0 : Rat) < 1024)]
  norm_cast

/-! ## Concrete generator environments used as evaluation points -/

def genEnvW : GenEnv :=
  { pathExists := fun _ => false, truetypeOk := fun _ _ => true,
    textbbox := fun _ _ => ⟨0, 0, 0, 0⟩, glyphs := fun _ _ => [],
    encode := fun _ _ => Except.ok 1000, projectRoot := "." }

def genEnvErrW : GenEnv :=
  { pathExists := fun _ => false, truetypeOk := fun _ _ => true,
    textbbox := fun _ _ => ⟨0, 0, 0, 0⟩, glyphs := fun _ _ => [],
    encode := fun _ _ => Except.error (PyErr.other "disk full"), projectRoot := "." }

def fsEmpty : FS := fun _ => none

def genFsW : FS := fun p =>
  if p = og_output_path genEnvW then
    some { size := 1000, image := ogImage genEnvW, params := SaveParams.jpeg 90 true false }
  else none

def genOutW : List OutMsg :=
  [OutMsg.createdImage (og_output_path genEnvW), OutMsg.dimensions WIDTH HEIGHT,
   OutMsg.fileSize (((1000 : Nat) : Rat) / 1024), OutMsg.sizeWithinLimits]

lemma create_og_image_genEnvW : create_og_image genEnvW fsEmpty = Except.ok (genFsW, genOutW) := by
  have hcond : ¬(((1000 : Nat) : Rat) / 1024 > 300) := by norm_num
  simp only [create_og_image,
    show genEnvW.encode (ogImage genEnvW) (SaveParams.jpeg 90 true false) = Except.ok 1000 from rfl,
    if_neg hcond]
  rfl

/-! ## Claim C1 -/

/-- C1: the claim says a missing PIL/Pillow is reported with an install
hint before the non-zero exit.  The code contradicts this: the
module-level `from PIL import ...` (line 7) raises before the
`try`/`except ImportError` in `__main__` (lines 124-133) is reached, so
the run aborts with a bare traceback and exit code 1 and neither the
"Error: PIL/Pillow is not installed." line nor the install hint is ever
printed.  The second half of the claim holds: any other exception during
generation is printed and the exit code is 1 (shown here at a failing
save). -/
theorem generator_c1_missing_pil_no_hint :
    runGeneratorScript false genEnvW fsEmpty
      = (fsEmpty, [OutMsg.traceback PyErr.importError], 1) ∧
    OutMsg.installHint ∉ (runGeneratorScript false genEnvW fsEmpty).2.1 ∧
    OutMsg.errorPILMissing ∉ (runGeneratorScript false genEnvW fsEmpty).2.1 ∧
    runGeneratorScript true genEnvErrW fsEmpty
      = (fsEmpty, [OutMsg.errorCreating (PyErr.other "disk full")], 1) := by
  refine ⟨rfl, ?_, ?_, rfl⟩ <;> decide

/-! ## Claim C2 -/

/-- C2 counterexample: a successful generator run writes the fixed output
file with the `progressive` flag off — `img.save(output_path, 'JPEG',
quality=90, optimize=True)` never requests a progressive layout — so the
claim's "progressive-style JPEG" fails on this successful run. -/
theorem generator_c2_counterexample :
    ((create_og_image genEnvW fsEmpty).toOption.map
      (fun r => (r.1 (og_output_path genEnvW)).map (fun fc => fc.params.progressiveFlag)))
      = some (some false) := by
  rw [create_og_image_genEnvW]
  rfl

/-- C2 (amended): every successful run of the generator produces a single
RGB raster of exactly 1200 × 630 pixels and encodes it as a quality-90
optimized baseline (non-progressive) JPEG written to the fixed output
path under the public directory; no other path is touched. -/
theorem generator_c2_dimensions_format (env : GenEnv) (fs fs' : FS) (out : List OutMsg)
    (h : create_og_image env fs = Except.ok (fs', out)) :
    ∃ n, env.encode (ogImage env) (SaveParams.jpeg 90 true false) = Except.ok n ∧
      fs' (og_output_path env) =
        some { size := n, image := ogImage env, params := SaveParams.jpeg 90 true false } ∧
      (ogImage env).mode = "RGB" ∧ (ogImage env).width = 1200 ∧ (ogImage env).height = 630 ∧
      (∀ q, q ≠ og_output_path env → fs' q = fs q) := by
  obtain ⟨n, henc, hfs, hout⟩ := create_og_image_ok env fs fs' out h
  refine ⟨n, henc, ?_, ogImage_mode env, ogImage_width env, ogImage_height env, ?_⟩
  · rw [hfs]; simp
  · intro q hq; rw [hfs]; simp [hq]

/-- Witness for C2 (amended) at a concrete successful run. -/
theorem generator_c2_witness :
    ∃ n, genEnvW.encode (ogImage genEnvW) (SaveParams.jpeg 90 true false) = Except.ok n ∧
      genFsW (og_output_path genEnvW) =
        some { size := n, image := ogImage genEnvW, params := SaveParams.jpeg 90 true false } ∧
      (ogImage genEnvW).mode = "RGB" ∧ (ogImage genEnvW).width = 1200 ∧
      (ogImage genEnvW).height = 630 ∧
      (∀ q, q ≠ og_output_path genEnvW → genFsW q = fsEmpty q) :=
  generator_c2_dimensions_format genEnvW fsEmpty genFsW genOutW create_og_image_genEnvW

/-! ## Claim C7 -/

/-- C7: after writing, the generator reports the output path, the
dimensions and the file size in KB, emits the warning line if and only
if the size in KB strictly exceeds 300 (equivalently: the byte count
exceeds 307200), prints the within-limits line otherwise, and the
written file is exactly the single save — the size check changes no file
and triggers no retry. -/
theorem generator_c7_size_report (env : GenEnv) (fs fs' : FS) (out : List OutMsg)
    (h : create_og_image env fs = Except.ok (fs', out)) :
    ∃ n, env.encode (ogImage env) (SaveParams.jpeg 90 true false) = Except.ok n ∧
      out = [OutMsg.createdImage (og_output_path env), OutMsg.dimensions WIDTH HEIGHT,
             OutMsg.fileSize ((n : Rat) / 1024)]
        ++ (if ((n : Rat) / 1024) > 300 then [OutMsg.warnExceeds300KB]
            else [OutMsg.sizeWithinLimits]) ∧
      (OutMsg.warnExceeds300KB ∈ out ↔ 307200 < n) ∧
      (OutMsg.sizeWithinLimits ∈ out ↔ n ≤ 307200) ∧
      fs' = (fun p => if p = og_output_path env then
               some { size := n, image := ogImage env, params := SaveParams.jpeg 90 true false }
             else fs p) := by
  obtain ⟨n, henc, hfs, hout⟩ := create_og_image_ok env fs fs' out h
  refine ⟨n, henc, hout, ?_, ?_, hfs⟩
  · subst hout
    by_cases hc : ((n : Rat) / 1024 > 300)
    · have h1 := (kb_gt_iff n).mp hc
      simp [if_pos hc, h1]
    · have h1 : ¬(307200 < n) := fun hx => hc ((kb_gt_iff n).mpr hx)
      simp [if_neg hc, h1]
  · subst hout
    by_cases hc : ((n : Rat) / 1024 > 300)
    · have h1 := (kb_gt_iff n).mp hc
      simp [if_pos hc]
      omega
    · have h1 : ¬(307200 < n) := fun hx => hc ((kb_gt_iff n).mpr hx)
      simp [if_neg hc]
      omega

/-- Witness for C7 at a concrete successful run (1000 bytes, under the
threshold, so the within-limits line is printed). -/
theorem generator_c7_witness :
    ∃ n, genEnvW.encode (ogImage genEnvW) (SaveParams.jpeg 90 true false) = Except.ok n ∧
      genOutW = [OutMsg.createdImage (og_output_path genEnvW), OutMsg.dimensions WIDTH HEIGHT,
             OutMsg.fileSize ((n : Rat) / 1024)]
        ++ (if ((n : Rat) / 1024) > 300 then [OutMsg.warnExceeds300KB]
            else [OutMsg.sizeWithinLimits]) ∧
      (OutMsg.warnExceeds300KB ∈ genOutW ↔ 307200 < n) ∧
      (OutMsg.sizeWithinLimits ∈ genOutW ↔ n ≤ 307200) ∧
      genFsW = (fun p => if p = og_output_path genEnvW then
               some { size := n, image := ogImage genEnvW, params := SaveParams.jpeg 90 true false }
             else fsEmpty p) :=
  generator_c7_size_report genEnvW fsEmpty genFsW genOutW create_og_image_genEnvW

/-! ## Claim C8 -/

/-- The behavior claimed for font selection: the three platform paths are
probed in listed order, the first existing one is loaded at sizes 80 and
40; no existing path, or either load raising, yields the built-in
default font for both. -/
def C8Conclusion (env : GenEnv) : Prop :=
  (∀ p, font_paths.find? env.pathExists = some p →
    (env.truetypeOk p 80 = true → env.truetypeOk p 40 = true →
      selectFonts env = (Font.truetype p 80, Font.truetype p 40)) ∧
    ((env.truetypeOk p 80 = false ∨ env.truetypeOk p 40 = false) →
      selectFonts env = (Font.defaultFont, Font.defaultFont))) ∧
  (font_paths.find? env.pathExists = none →
    selectFonts env = (Font.defaultFont, Font.defaultFont)) ∧
  font_paths = ["/System/Library/Fonts/Supplemental/Arial Bold.ttf",
    "/usr/share/fonts/truetype/dejavu/DejaVuSans-Bold.ttf",
    "C:\\Windows\\Fonts\\arialbd.ttf"]

/-- C8: font selection tries the three platform font paths in order, uses
the first existing one at size 80 (title) and 40 (subtitle), and falls
back to the built-in default for both fonts when no path exists or
loading raises. -/
theorem generator_c8_font_fallback (env : GenEnv) : C8Conclusion env := by
  refine ⟨?_, ?_, rfl⟩
  · intro p hp
    constructor
    · intro h80 h40
      simp [selectFonts, hp, h80, h40]
    · intro hcase
      rcases hcase with h | h
      · simp [selectFonts, hp, h]
      · cases h80 : env.truetypeOk p 80
        · simp [selectFonts, hp, h80]
        · simp [selectFonts, hp, h80, h]
  · intro hn
    simp [selectFonts, hn]

def linuxFontPath : PathStr := "/usr/share/fonts/truetype/dejavu/DejaVuSans-Bold.ttf"

def genEnvFontW : GenEnv :=
  { pathExists := fun p => p == linuxFontPath, truetypeOk := fun _ _ => true,
    textbbox := fun _ _ => ⟨0, 0, 0, 0⟩, glyphs := fun _ _ => [],
    encode := fun _ _ => Except.ok 1000, projectRoot := "." }

/-- Witness for C8: with only the Linux font present, the first existing
path (the second of the list) wins and both sizes load from it. -/
theorem generator_c8_witness :
    selectFonts genEnvFontW = (Font.truetype linuxFontPath 80, Font.truetype linuxFontPath 40) :=
  ((generator_c8_font_fallback genEnvFontW).1 linuxFontPath rfl).1 rfl rfl

/-! ## Optimizer lemmas -/

lemma optimize_png_ok (env : OptEnv) (fs : FS) (p : PathStr) (o : Option PathStr) (q : Nat)
    (res : OptResult) (h : optimize_png env fs p o q = Except.ok res) :
    ∃ fc img n, fs p = some fc ∧ env.openImage p fc = Except.ok img ∧
      env.encode (putdata (pilNew img.mode img.width img.height (zeroPixel img.mode)) img.data)
        (SaveParams.png true 9) = Except.ok n ∧
      fc.size ≠ 0 ∧
      res = { fs := fun x => if x = o.getD p then
                some { size := n,
                       image := putdata (pilNew img.mode img.width img.height (zeroPixel img.mode))
                         img.data,
                       params := SaveParams.png true 9 }
              else fs x,
              out := [OutMsg.optimizing p] ++ savingsLines fc.size n,
              newSize := n } := by
  simp only [optimize_png] at h
  split at h
  · exact absurd h (by simp)
  case _ fc hfc =>
    split at h
    · exact absurd h (by simp)
    case _ img himg =>
      split at h
      · exact absurd h (by simp)
      case _ n henc =>
        split at h
        · exact absurd h (by simp)
        case _ hsz =>
          refine ⟨fc, img, n, hfc, himg, henc, hsz, ?_⟩
          simp only [Except.ok.injEq] at h
          exact h.symm

lemma optimize_jpg_ok (env : OptEnv) (fs : FS) (p : PathStr) (o : Option PathStr) (q : Nat)
    (res : OptResult) (h : optimize_jpg env fs p o q = Except.ok res) :
    ∃ fc img0 n, fs p = some fc ∧ env.openImage p fc = Except.ok img0 ∧
      env.encode (putdata (pilNew (flattenForJPEG env img0).mode (flattenForJPEG env img0).width
          (flattenForJPEG env img0).height (zeroPixel (flattenForJPEG env img0).mode))
        (flattenForJPEG env img0).data) (SaveParams.jpeg q true true) = Except.ok n ∧
      fc.size ≠ 0 ∧
      res = { fs := fun x => if x = o.getD p then
                some { size := n,
                       image := putdata (pilNew (flattenForJPEG env img0).mode
                         (flattenForJPEG env img0).width (flattenForJPEG env img0).height
                         (zeroPixel (flattenForJPEG env img0).mode)) (flattenForJPEG env img0).data,
                       params := SaveParams.jpeg q true true }
              else fs x,
              out := [OutMsg.optimizing p] ++ savingsLines fc.size n,
              newSize := n } := by
  simp only [optimize_jpg] at h
  split at h
  · exact absurd h (by simp)
  case _ fc hfc =>
    split at h
    · exact absurd h (by simp)
    case _ img0 himg =>
      split at h
      · exact absurd h (by simp)
      case _ n henc =>
        split at h
        · exact absurd h (by simp)
        case _ hsz =>
          refine ⟨fc, img0, n, hfc, himg, henc, hsz, ?_⟩
          simp only [Except.ok.injEq] at h
          exact h.symm

lemma optimize_webp_ok (env : OptEnv) (fs : FS) (p : PathStr) (o : Option PathStr) (q : Nat)
    (res : OptResult) (h : optimize_webp env fs p o q = Except.ok res) :
    ∃ fc img n, fs p = some fc ∧ env.openImage p fc = Except.ok img ∧
      env.encode (putdata (pilNew img.mode img.width img.height (zeroPixel img.mode)) img.data)
        (SaveParams.webp q 6) = Except.ok n ∧
      fc.size ≠ 0 ∧
      res = { fs := fun x => if x = o.getD p then
                some { size := n,
                       image := putdata (pilNew img.mode img.width img.height (zeroPixel img.mode))
                         img.data,
                       params := SaveParams.webp q 6 }
              else fs x,
              out := [OutMsg.optimizing p] ++ savingsLines fc.size n,
              newSize := n } := by
  simp only [optimize_webp] at h
  split at h
  · exact absurd h (by simp)
  case _ fc hfc =>
    split at h
    · exact absurd h (by simp)
    case _ img himg =>
      split at h
      · exact absurd h (by simp)
      case _ n henc =>
        split at h
        · exact absurd h (by simp)
        case _ hsz =>
          refine ⟨fc, img, n, hfc, himg, henc, hsz, ?_⟩
          simp only [Except.ok.injEq] at h
          exact h.symm

lemma optimize_png_err (env : OptEnv) (fs : FS) (p : PathStr) (o : Option PathStr) (q : Nat)
    (e : PyErr) (efs : FS) (eout : List OutMsg)
    (h : optimize_png env fs p o q = Except.error (e, efs, eout)) :
    eout = [OutMsg.optimizing p] ∧ ∀ x, x ≠ o.getD p → efs x = fs x := by
  simp only [optimize_png] at h
  split at h
  · simp only [Except.error.injEq, Prod.mk.injEq] at h
    exact ⟨h.2.2.symm, fun x hx => by rw [← h.2.1]⟩
  · split at h
    · simp only [Except.error.injEq, Prod.mk.injEq] at h
      exact ⟨h.2.2.symm, fun x hx => by rw [← h.2.1]⟩
    · split at h
      · simp only [Except.error.injEq, Prod.mk.injEq] at h
        exact ⟨h.2.2.symm, fun x hx => by rw [← h.2.1]⟩
      · split at h
        · simp only [Except.error.injEq, Prod.mk.injEq] at h
          refine ⟨h.2.2.symm, fun x hx => ?_⟩
          rw [← h.2.1]
          simp [hx]
        · exact absurd h (by simp)

lemma optimize_jpg_err (env : OptEnv) (fs : FS) (p : PathStr) (o : Option PathStr) (q : Nat)
    (e : PyErr) (efs : FS) (eout : List OutMsg)
    (h : optimize_jpg env fs p o q = Except.error (e, efs, eout)) :
    eout = [OutMsg.optimizing p] ∧ ∀ x, x ≠ o.getD p → efs x = fs x := by
  simp only [optimize_jpg] at h
  split at h
  · simp only [Except.error.injEq, Prod.mk.injEq] at h
    exact ⟨h.2.2.symm, fun x hx => by rw [← h.2.1]⟩
  · split at h
    · simp only [Except.error.injEq, Prod.mk.injEq] at h
      exact ⟨h.2.2.symm, fun x hx => by rw [← h.2.1]⟩
    · split at h
      · simp only [Except.error.injEq, Prod.mk.injEq] at h
        exact ⟨h.2.2.symm, fun x hx => by rw [← h.2.1]⟩
      · split at h
        · simp only [Except.error.injEq, Prod.mk.injEq] at h
          refine ⟨h.2.2.symm, fun x hx => ?_⟩
          rw [← h.2.1]
          simp [hx]
        · exact absurd h (by simp)

lemma optimize_webp_err (env : OptEnv) (fs : FS) (p : PathStr) (o : Option PathStr) (q : Nat)
    (e : PyErr) (efs : FS) (eout : List OutMsg)
    (h : optimize_webp env fs p o q = Except.error (e, efs, eout)) :
    eout = [OutMsg.optimizing p] ∧ ∀ x, x ≠ o.getD p → efs x = fs x := by
  simp only [optimize_webp] at h
  split at h
  · simp only [Except.error.injEq, Prod.mk.injEq] at h
    exact ⟨h.2.2.symm, fun x hx => by rw [← h.2.1]⟩
  · split at h
    · simp only [Except.error.injEq, Prod.mk.injEq] at h
      exact ⟨h.2.2.symm, fun x hx => by rw [← h.2.1]⟩
    · split at h
      · simp only [Except.error.injEq, Prod.mk.injEq] at h
        exact ⟨h.2.2.symm, fun x hx => by rw [← h.2.1]⟩
      · split at h
        · simp only [Except.error.injEq, Prod.mk.injEq] at h
          refine ⟨h.2.2.symm, fun x hx => ?_⟩
          rw [← h.2.1]
          simp [hx]
        · exact absurd h (by simp)

lemma dispatch_ok_inv (env : OptEnv) (fs : FS) (p : PathStr) (f : String) (res : OptResult)
    (h : dispatchOptimize env fs p f = Except.ok res) :
    ∃ fc, fs p = some fc ∧ fc.size ≠ 0 ∧
      res.out = [OutMsg.optimizing p] ++ savingsLines fc.size res.newSize ∧
      (∀ x, x ≠ p → res.fs x = fs x) := by
  simp only [dispatchOptimize] at h
  split at h
  · obtain ⟨fc, img, n, hfc, _, _, hsz, hres⟩ := optimize_png_ok env fs p none 85 res h
    subst hres
    exact ⟨fc, hfc, hsz, rfl, fun x hx => by simp [hx]⟩
  · split at h
    · obtain ⟨fc, img, n, hfc, _, _, hsz, hres⟩ := optimize_jpg_ok env fs p none 90 res h
      subst hres
      exact ⟨fc, hfc, hsz, rfl, fun x hx => by simp [hx]⟩
    · split at h
      · obtain ⟨fc, img, n, hfc, _, _, hsz, hres⟩ := optimize_webp_ok env fs p none 90 res h
        subst hres
        exact ⟨fc, hfc, hsz, rfl, fun x hx => by simp [hx]⟩
      · exact absurd h (by simp)

lemma dispatch_err_inv (env : OptEnv) (fs : FS) (p : PathStr) (f : String)
    (e : PyErr) (efs : FS) (eout : List OutMsg)
    (h : dispatchOptimize env fs p f = Except.error (e, efs, eout)) :
    (eout = [] ∨ eout = [OutMsg.optimizing p]) ∧ ∀ x, x ≠ p → efs x = fs x := by
  simp only [dispatchOptimize] at h
  split at h
  · obtain ⟨ho, hf⟩ := optimize_png_err env fs p none 85 e efs eout h
    exact ⟨Or.inr ho, fun x hx => hf x (by simpa using hx)⟩
  · split at h
    · obtain ⟨ho, hf⟩ := optimize_jpg_err env fs p none 90 e efs eout h
      exact ⟨Or.inr ho, fun x hx => hf x (by simpa using hx)⟩
    · split at h
      · obtain ⟨ho, hf⟩ := optimize_webp_err env fs p none 90 e efs eout h
        exact ⟨Or.inr ho, fun x hx => hf x (by simpa using hx)⟩
      · simp only [Except.error.injEq, Prod.mk.injEq] at h
        exact ⟨Or.inl h.2.2.symm, fun x hx => by rw [← h.2.1]⟩

lemma processImages_cons_none (env : OptEnv) (q : PathStr) (f : String)
    (rest : List (PathStr × String)) (fs : FS) (hq : fs q = none) :
    processImages env ((q, f) :: rest) fs =
      { processImages env rest fs with
        out := OutMsg.skippingNotFound q :: (processImages env rest fs).out } := by
  simp only [processImages, hq]

lemma processImages_cons_err (env : OptEnv) (q : PathStr) (f : String)
    (rest : List (PathStr × String)) (fs : FS) (fc : FileContent) (e : PyErr) (efs : FS)
    (eout : List OutMsg) (hq : fs q = some fc)
    (hd : dispatchOptimize env fs q f = Except.error (e, efs, eout)) :
    processImages env ((q, f) :: rest) fs =
      { fs := efs, out := eout, tot := 0, err := some e } := by
  simp only [processImages, hq, hd]

lemma processImages_cons_ok (env : OptEnv) (q : PathStr) (f : String)
    (rest : List (PathStr × String)) (fs : FS) (fc : FileContent) (res : OptResult)
    (hq : fs q = some fc) (hd : dispatchOptimize env fs q f = Except.ok res) :
    processImages env ((q, f) :: rest) fs =
      { fs := (processImages env rest res.fs).fs,
        out := res.out ++ OutMsg.blank :: (processImages env rest res.fs).out,
        tot := ((fc.size : Int) - (res.newSize : Int)) + (processImages env rest res.fs).tot,
        err := (processImages env rest res.fs).err } := by
  simp only [processImages, hq, hd]

lemma processImages_fs_absent (env : OptEnv) (entries : List (PathStr × String)) :
    ∀ (fs : FS) (p : PathStr), fs p = none → (processImages env entries fs).fs p = none := by
  induction entries with
  | nil => intro fs p h; simpa [processImages] using h
  | cons ent rest ih =>
    intro fs p h
    obtain ⟨q, f⟩ := ent
    cases hq : fs q with
    | none =>
      rw [processImages_cons_none env q f rest fs hq]
      exact ih fs p h
    | some fc =>
      have hqp : q ≠ p := fun hqp => by rw [hqp, h] at hq; exact Option.noConfusion hq
      cases hd : dispatchOptimize env fs q f with
      | error t =>
        obtain ⟨e, efs, eout⟩ := t
        rw [processImages_cons_err env q f rest fs fc e efs eout hq hd]
        have := (dispatch_err_inv env fs q f e efs eout hd).2 p (fun hpq => hqp hpq.symm)
        show efs p = none
        rw [this]
        exact h
      | ok res =>
        rw [processImages_cons_ok env q f rest fs fc res hq hd]
        obtain ⟨fc', hfc', _, _, hframe⟩ := dispatch_ok_inv env fs q f res hd
        exact ih res.fs p (by rw [hframe p (fun hpq => hqp hpq.symm)]; exact h)

lemma mainOpt_fs (env : OptEnv) (fs : FS) :
    (mainOpt env fs).fs = (processImages env images_to_optimize fs).fs := by
  simp only [mainOpt]
  cases herr : (processImages env images_to_optimize fs).err <;> simp [herr]

/-- The savings figures actually reported in a list of printed lines. -/
def reportedSavings (out : List OutMsg) : List Int :=
  out.filterMap (fun m => match m with
    | OutMsg.savedBytes s _ => some s
    | _ => none)

lemma reportedSavings_append (a b : List OutMsg) :
    reportedSavings (a ++ b) = reportedSavings a ++ reportedSavings b := by
  simp [reportedSavings]

lemma reportedSavings_savingsLines (o n : Nat) :
    reportedSavings (savingsLines o n) = [(o : Int) - (n : Int)] := by
  simp [reportedSavings, savingsLines]

lemma processImages_no_total (env : OptEnv) (entries : List (PathStr × String)) :
    ∀ (fs : FS) (t : Int) (k : Rat),
      OutMsg.totalSaved t k ∉ (processImages env entries fs).out := by
  induction entries with
  | nil => intro fs t k; simp [processImages]
  | cons ent rest ih =>
    intro fs t k
    obtain ⟨q, f⟩ := ent
    cases hq : fs q with
    | none =>
      rw [processImages_cons_none env q f rest fs hq]
      simp only [List.mem_cons]
      rintro (h | h)
      · exact OutMsg.noConfusion h
      · exact ih fs t k h
    | some fc =>
      cases hd : dispatchOptimize env fs q f with
      | error t2 =>
        obtain ⟨e, efs, eout⟩ := t2
        rw [processImages_cons_err env q f rest fs fc e efs eout hq hd]
        rcases (dispatch_err_inv env fs q f e efs eout hd).1 with ho | ho <;> simp [ho]
      | ok res =>
        rw [processImages_cons_ok env q f rest fs fc res hq hd]
        obtain ⟨fc', hfc', hsz, hout, hfr⟩ := dispatch_ok_inv env fs q f res hd
        simp only [List.mem_append, List.mem_cons]
        rintro (h | h | h)
        · rw [hout] at h
          simp [savingsLines] at h
        · exact OutMsg.noConfusion h
        · exact ih res.fs t k h

lemma processImages_tot_eq (env : OptEnv) (entries : List (PathStr × String)) :
    ∀ fs : FS, (processImages env entries fs).err = none →
      (processImages env entries fs).tot
        = (reportedSavings (processImages env entries fs).out).sum := by
  induction entries with
  | nil => intro fs _; simp [processImages, reportedSavings]
  | cons ent rest ih =>
    intro fs herr
    obtain ⟨q, f⟩ := ent
    cases hq : fs q with
    | none =>
      rw [processImages_cons_none env q f rest fs hq] at herr ⊢
      show (processImages env rest fs).tot
        = (reportedSavings (OutMsg.skippingNotFound q :: (processImages env rest fs).out)).sum
      have hskip : reportedSavings (OutMsg.skippingNotFound q :: (processImages env rest fs).out)
          = reportedSavings (processImages env rest fs).out := by
        simp [reportedSavings]
      rw [hskip]
      exact ih fs herr
    | some fc =>
      cases hd : dispatchOptimize env fs q f with
      | error t2 =>
        obtain ⟨e, efs, eout⟩ := t2
        rw [processImages_cons_err env q f rest fs fc e efs eout hq hd] at herr
        exact absurd herr (by simp)
      | ok res =>
        rw [processImages_cons_ok env q f rest fs fc res hq hd] at herr ⊢
        obtain ⟨fc', hfc', hsz, hout, hfr⟩ := dispatch_ok_inv env fs q f res hd
        have hfc2 : fc' = fc := by
          rw [hq] at hfc'
          exact (Option.some_inj.mp hfc').symm
        show ((fc.size : Int) - (res.newSize : Int)) + (processImages env rest res.fs).tot
          = (reportedSavings (res.out ++ OutMsg.blank :: (processImages env rest res.fs).out)).sum
        rw [reportedSavings_append, hout, hfc2]
        have hblank : reportedSavings (OutMsg.blank :: (processImages env rest res.fs).out)
            = reportedSavings (processImages env rest res.fs).out := by
          simp [reportedSavings]
        rw [hblank]
        have h1 : reportedSavings ([OutMsg.optimizing q] ++ savingsLines fc.size res.newSize)
            = [(fc.size : Int) - (res.newSize : Int)] := by
          rw [reportedSavings_append, reportedSavings_savingsLines]
          simp [reportedSavings]
        rw [h1]
        simp only [List.sum_append, List.sum_cons, List.sum_nil]
        have := ih res.fs herr
        omega

/-! ## Concrete optimizer environments used as evaluation points -/

def optEnvW : OptEnv :=
  { encode := fun _ _ => Except.ok 3,
    openImage := fun _ fc => Except.ok fc.image,
    convertRGBA := fun img => img }

def optEnvFailW : OptEnv :=
  { encode := fun _ _ => Except.ok 3,
    openImage := fun _ _ => Except.error (PyErr.other "cannot identify image file"),
    convertRGBA := fun img => img }

def imgRgbW : PILImage := { mode := "RGB", width := 1, height := 1, data := [[1, 2, 3]], info := [] }

def fcW : FileContent := { size := 10, image := imgRgbW, params := SaveParams.png true 9 }

def fs5W : FS := fun p => if (images_to_optimize.map Prod.fst).contains p then some fcW else none

def firstEntryPath : PathStr := "src/assets/covers/fracture-engine.png"

def restEntriesW : List (PathStr × String) :=
  [("public/covers/fracture-engine.png", "png"),
   ("src/assets/covers/fracture-engine.webp", "webp"),
   ("public/covers/fracture-engine.webp", "webp"),
   ("public/cache-mcclure-og.jpg", "jpg")]

/-! ## Claim C3 -/

/-- The savings bookkeeping claimed for the optimizer: each successful
`optimize_*` call reports savings `original_size - new_size` and the
percentage `savings / original_size * 100`; a completed loop's
accumulator equals the sum of the reported per-file savings (skipped
files report none and contribute nothing); the printed grand total
carries exactly that sum. -/
def C3Conclusion (env : OptEnv) : Prop :=
  (∀ (fs : FS) (p : PathStr) (o : Option PathStr) (q : Nat) (res : OptResult),
    optimize_png env fs p o q = Except.ok res →
    ∃ fc, fs p = some fc ∧
      res.out = [OutMsg.optimizing p, OutMsg.originalBytes fc.size,
        OutMsg.optimizedBytes res.newSize,
        OutMsg.savedBytes ((fc.size : Int) - (res.newSize : Int))
          ((((fc.size : Int) - (res.newSize : Int) : Int) : Rat) / (fc.size : Rat) * 100)]) ∧
  (∀ (fs : FS) (p : PathStr) (o : Option PathStr) (q : Nat) (res : OptResult),
    optimize_jpg env fs p o q = Except.ok res →
    ∃ fc, fs p = some fc ∧
      res.out = [OutMsg.optimizing p, OutMsg.originalBytes fc.size,
        OutMsg.optimizedBytes res.newSize,
        OutMsg.savedBytes ((fc.size : Int) - (res.newSize : Int))
          ((((fc.size : Int) - (res.newSize : Int) : Int) : Rat) / (fc.size : Rat) * 100)]) ∧
  (∀ (fs : FS) (p : PathStr) (o : Option PathStr) (q : Nat) (res : OptResult),
    optimize_webp env fs p o q = Except.ok res →
    ∃ fc, fs p = some fc ∧
      res.out = [OutMsg.optimizing p, OutMsg.originalBytes fc.size,
        OutMsg.optimizedBytes res.newSize,
        OutMsg.savedBytes ((fc.size : Int) - (res.newSize : Int))
          ((((fc.size : Int) - (res.newSize : Int) : Int) : Rat) / (fc.size : Rat) * 100)]) ∧
  (∀ (entries : List (PathStr × String)) (fs : FS),
    (processImages env entries fs).err = none →
    (processImages env entries fs).tot
      = (reportedSavings (processImages env entries fs).out).sum) ∧
  (∀ fs : FS, (mainOpt env fs).err = none →
    OutMsg.totalSaved ((reportedSavings (mainOpt env fs).out).sum)
      (((reportedSavings (mainOpt env fs).out).sum : Rat) / 1024) ∈ (mainOpt env fs).out)

/-- C3: reported savings equal `original_size - new_size` (and the
percentage equals `savings / original_size * 100`) for every processed
file, and the printed grand total equals the sum of per-file savings
over exactly the processed files. -/
theorem optimizer_c3_savings (env : OptEnv) : C3Conclusion env := by
  refine ⟨?_, ?_, ?_, ?_, ?_⟩
  · intro fs p o q res h
    obtain ⟨fc, img, n, hfc, _, _, _, hres⟩ := optimize_png_ok env fs p o q res h
    subst hres
    exact ⟨fc, hfc, by simp [savingsLines]⟩
  · intro fs p o q res h
    obtain ⟨fc, img0, n, hfc, _, _, _, hres⟩ := optimize_jpg_ok env fs p o q res h
    subst hres
    exact ⟨fc, hfc, by simp [savingsLines]⟩
  · intro fs p o q res h
    obtain ⟨fc, img, n, hfc, _, _, _, hres⟩ := optimize_webp_ok env fs p o q res h
    subst hres
    exact ⟨fc, hfc, by simp [savingsLines]⟩
  · exact fun entries fs herr => processImages_tot_eq env entries fs herr
  · intro fs hm
    have herr : (processImages env images_to_optimize fs).err = none := by
      cases he : (processImages env images_to_optimize fs).err with
      | none => rfl
      | some e => rw [mainOpt, he] at hm; exact absurd hm (by simp [he])
    have htot := processImages_tot_eq env images_to_optimize fs herr
    have hout : (mainOpt env fs).out
        = (processImages env images_to_optimize fs).out
          ++ [OutMsg.totalSaved (processImages env images_to_optimize fs).tot
               (((processImages env images_to_optimize fs).tot : Rat) / 1024),
              OutMsg.allOptimized] := by
      simp [mainOpt, herr]
    rw [hout]
    have hrs : reportedSavings ((processImages env images_to_optimize fs).out
        ++ [OutMsg.totalSaved (processImages env images_to_optimize fs).tot
             (((processImages env images_to_optimize fs).tot : Rat) / 1024),
            OutMsg.allOptimized])
        = reportedSavings (processImages env images_to_optimize fs).out := by
      rw [reportedSavings_append]
      simp [reportedSavings]
    rw [hrs, ← htot]
    simp

/-- Witness for C3: a full run over the fixed worklist with every file
present prints the grand total equal to the sum of the reported
savings. -/
theorem optimizer_c3_witness :
    OutMsg.totalSaved ((reportedSavings (mainOpt optEnvW fs5W).out).sum)
      (((reportedSavings (mainOpt optEnvW fs5W).out).sum : Rat) / 1024)
      ∈ (mainOpt optEnvW fs5W).out :=
  (optimizer_c3_savings optEnvW).2.2.2.2 fs5W rfl

/-! ## Claim C5 -/

/-- The skip behavior claimed for a missing worklist file: the entry
contributes exactly the skip message, the filesystem is passed on
unchanged (the file is neither opened nor written), the loop continues
with all remaining entries, and the missing path still does not exist
after the whole run. -/
def C5Conclusion (env : OptEnv) (fs : FS) (p : PathStr) (f : String)
    (rest : List (PathStr × String)) : Prop :=
  processImages env ((p, f) :: rest) fs =
    { fs := (processImages env rest fs).fs,
      out := OutMsg.skippingNotFound p :: (processImages env rest fs).out,
      tot := (processImages env rest fs).tot,
      err := (processImages env rest fs).err } ∧
  (mainOpt env fs).fs p = none

/-- C5: a worklist record whose file does not exist is skipped with a
message, processing continues for all subsequent records against the
unchanged filesystem, and the skipped file is never opened or written. -/
theorem optimizer_c5_skip_missing (env : OptEnv) (fs : FS) (p : PathStr) (f : String)
    (rest : List (PathStr × String))
    (hsuffix : List.IsSuffix ((p, f) :: rest) images_to_optimize)
    (habs : fs p = none) : C5Conclusion env fs p f rest := by
  refine ⟨?_, ?_⟩
  · rw [processImages_cons_none env p f rest fs habs]
  · rw [mainOpt_fs]
    exact processImages_fs_absent env images_to_optimize fs p habs

/-- Witness for C5 at the first worklist record over an empty
filesystem. -/
theorem optimizer_c5_witness : C5Conclusion optEnvW fsEmpty firstEntryPath "png" restEntriesW :=
  optimizer_c5_skip_missing optEnvW fsEmpty firstEntryPath "png" restEntriesW ⟨[], rfl⟩ rfl

/-! ## Claim C9 -/

/-- The abort behavior claimed for a failing worklist entry: the loop
returns at once with the raised error, the state at the raise point and
only the lines printed so far (never the grand total — the conclusion is
stated for any continuation `rest`, which the result does not mention,
so no subsequent entry is processed); an aborted `main()` run prints no
grand total at all. -/
def C9Conclusion (env : OptEnv) (fs : FS) (p : PathStr) (f : String)
    (rest : List (PathStr × String)) (e : PyErr) (efs : FS) (eout : List OutMsg) : Prop :=
  processImages env ((p, f) :: rest) fs = { fs := efs, out := eout, tot := 0, err := some e } ∧
  (∀ (t : Int) (k : Rat), OutMsg.totalSaved t k ∉ eout) ∧
  (∀ fs₀ : FS, (mainOpt env fs₀).err.isSome = true →
    ∀ (t : Int) (k : Rat), OutMsg.totalSaved t k ∉ (mainOpt env fs₀).out)

/-- C9: an error raised while processing an existing worklist entry is
not caught: the loop halts there (the result is independent of the
remaining entries), the filesystem is left as it was at the raise point
— files already processed keep their optimized state — and no grand
total is printed. -/
theorem optimizer_c9_error_halts (env : OptEnv) (fs : FS) (p : PathStr) (f : String)
    (rest : List (PathStr × String)) (fc : FileContent) (e : PyErr) (efs : FS)
    (eout : List OutMsg)
    (hex : fs p = some fc)
    (herr : dispatchOptimize env fs p f = Except.error (e, efs, eout)) :
    C9Conclusion env fs p f rest e efs eout := by
  refine ⟨processImages_cons_err env p f rest fs fc e efs eout hex herr, ?_, ?_⟩
  · intro t k
    rcases (dispatch_err_inv env fs p f e efs eout herr).1 with ho | ho <;> simp [ho]
  · intro fs₀ hm t k
    have hout : (mainOpt env fs₀).out = (processImages env images_to_optimize fs₀).out := by
      simp only [mainOpt]
      cases he : (processImages env images_to_optimize fs₀).err with
      | none => rw [mainOpt, he] at hm; exact absurd hm (by simp [he])
      | some e2 => simp [he]
    rw [hout]
    exact processImages_no_total env images_to_optimize fs₀ t k

/-- Witness for C9: a decoder that raises on the first worklist entry
aborts the loop with only the "Optimizing" line printed. -/
theorem optimizer_c9_witness :
    C9Conclusion optEnvFailW fs5W firstEntryPath "png" restEntriesW
      (PyErr.other "cannot identify image file") fs5W [OutMsg.optimizing firstEntryPath] :=
  optimizer_c9_error_halts optEnvFailW fs5W firstEntryPath "png" restEntriesW fcW
    (PyErr.other "cannot identify image file") fs5W [OutMsg.optimizing firstEntryPath] rfl rfl

/-! ## Claim C10 -/

/-- C10: the `quality` parameter of `optimize_png` has no effect — for
every environment, filesystem, input and output path, two calls with any
two quality values return identical results (the PNG save path passes
only `optimize=True` and `compress_level=9` and never reads `quality`). -/
theorem optimizer_c10_quality_unused (env : OptEnv) (fs : FS) (input_path : PathStr)
    (output_path : Option PathStr) (q1 q2 : Nat) :
    optimize_png env fs input_path output_path q1
      = optimize_png env fs input_path output_path q2 := rfl

/-! ## Flattening lemmas for C4 and C6 -/

lemma flattenForJPEG_eq (env : OptEnv) (img : PILImage)
    (hmode : img.mode ∈ (["RGBA", "LA", "P"] : List String))
    (hmask : (maskImage env img).mode = "RGBA" ∨ (maskImage env img).mode = "LA") :
    flattenForJPEG env img
      = pasteWithMask (pilNew "RGB" img.width img.height [255, 255, 255]) (maskImage env img)
          (some (alphaBand (maskImage env img))) := by
  simp only [flattenForJPEG, maskImage]
  rw [if_pos hmode]
  rcases hmask with h | h <;> simp only [maskImage] at h <;> simp [h]

lemma flattenForJPEG_mode (env : OptEnv) (img : PILImage)
    (hmode : img.mode ∈ (["RGBA", "LA", "P"] : List String)) :
    (flattenForJPEG env img).mode = "RGB" := by
  simp only [flattenForJPEG]
  rw [if_pos hmode]
  rfl

lemma flattenForJPEG_width (env : OptEnv) (img : PILImage)
    (hmode : img.mode ∈ (["RGBA", "LA", "P"] : List String)) :
    (flattenForJPEG env img).width = img.width := by
  simp only [flattenForJPEG]
  rw [if_pos hmode]
  rfl

lemma flattenForJPEG_height (env : OptEnv) (img : PILImage)
    (hmode : img.mode ∈ (["RGBA", "LA", "P"] : List String)) :
    (flattenForJPEG env img).height = img.height := by
  simp only [flattenForJPEG]
  rw [if_pos hmode]
  rfl

lemma flattenForJPEG_id (env : OptEnv) (img : PILImage)
    (hmode : img.mode ∉ (["RGBA", "LA", "P"] : List String)) :
    flattenForJPEG env img = img := by
  simp only [flattenForJPEG]
  rw [if_neg hmode]

lemma pasteWithMask_getD (bg src : PILImage) (m : List Nat) (i : Nat)
    (hi : i < bg.width * bg.height) :
    (pasteWithMask bg src (some m)).data.getD i []
      = blendPixel (bg.data.getD i []) (toRGB src.mode (src.data.getD i [])) (m.getD i 0) := by
  simp only [pasteWithMask]
  rw [List.getD_eq_getElem _ _ (by simpa using hi)]
  simp

lemma blendPixel_zero (s : Pixel) (h : s.length = 3) :
    blendPixel [255, 255, 255] s 0 = [255, 255, 255] := by
  obtain ⟨a, b, c, rfl⟩ := List.length_eq_three.mp h
  simp [blendPixel]

lemma putdata_pilNew (m : String) (w h : Nat) (z : Pixel) (data : List Pixel)
    (hlen : data.length = w * h) :
    putdata (pilNew m w h z) data
      = { mode := m, width := w, height := h, data := data, info := [] } := by
  simp only [putdata, pilNew]
  congr 1
  rw [show data.take (w * h) = data from by rw [← hlen]; exact List.take_length data,
    List.drop_eq_nil_of_le (by simp [hlen]), List.append_nil]

/-! ## Claim C4 -/

/-- The flattening behavior claimed for the JPEG path on an alpha or
palette source: the result is an RGB image of the same dimensions; every
pixel whose (post-conversion) alpha is 0 becomes opaque white; and a
successful `optimize_jpg` call as `main()` makes it writes the rebuilt
flattened image with `quality=90, optimize=True, progressive=True`. -/
def C4Conclusion (env : OptEnv) (img : PILImage) : Prop :=
  (flattenForJPEG env img).mode = "RGB" ∧
  (flattenForJPEG env img).width = img.width ∧
  (flattenForJPEG env img).height = img.height ∧
  (∀ i, i < img.width * img.height →
    (alphaBand (maskImage env img)).getD i 0 = 0 →
    (flattenForJPEG env img).data.getD i [] = [255, 255, 255]) ∧
  (∀ (fs : FS) (p : PathStr) (res : OptResult),
    optimize_jpg env fs p none 90 = Except.ok res →
    ∀ fc, fs p = some fc → env.openImage p fc = Except.ok img →
      res.fs p = some { size := res.newSize,
                        image := putdata (pilNew (flattenForJPEG env img).mode
                          (flattenForJPEG env img).width (flattenForJPEG env img).height
                          (zeroPixel (flattenForJPEG env img).mode)) (flattenForJPEG env img).data,
                        params := SaveParams.jpeg 90 true true })

/-- C4: re-encoding an RGBA, LA or P source to JPEG first flattens it
onto an opaque white background, compositing through the image's own
alpha/mask band (for P sources, the band of its RGBA conversion), so
fully transparent pixels become white; the result is then encoded at
quality 90 with the progressive layout. -/
theorem optimizer_c4_flatten_white (env : OptEnv) (img : PILImage)
    (hmode : img.mode ∈ (["RGBA", "LA", "P"] : List String))
    (hlen : (maskImage env img).data.length = img.width * img.height)
    (hwf : ∀ px ∈ (maskImage env img).data, px.length = modeChannels (maskImage env img).mode)
    (hmask : (maskImage env img).mode = "RGBA" ∨ (maskImage env img).mode = "LA") :
    C4Conclusion env img := by
  refine ⟨flattenForJPEG_mode env img hmode, flattenForJPEG_width env img hmode,
    flattenForJPEG_height env img hmode, ?_, ?_⟩
  · intro i hi ha
    rw [flattenForJPEG_eq env img hmode hmask]
    rw [pasteWithMask_getD (pilNew "RGB" img.width img.height [255, 255, 255])
      (maskImage env img) (alphaBand (maskImage env img)) i hi]
    rw [ha]
    have hbg : (pilNew "RGB" img.width img.height [255, 255, 255]).data.getD i []
        = [255, 255, 255] := by
      rw [List.getD_eq_getElem _ _ (by simp [pilNew, hi])]
      simp [pilNew]
    rw [hbg]
    apply blendPixel_zero
    have hpx : (maskImage env img).data.getD i [] ∈ (maskImage env img).data := by
      rw [List.getD_eq_getElem _ _ (by rw [hlen]; exact hi)]
      exact List.getElem_mem _
    have hplen := hwf _ hpx
    rcases hmask with h | h
    · rw [h] at hplen ⊢
      rw [show modeChannels "RGBA" = 4 from rfl] at hplen
      have hplen2 : ((maskImage env img).data[i]?.getD ([] : Pixel)).length = 4 := by
        rw [← List.getD_eq_getElem?_getD]
        exact hplen
      simp [toRGB, List.length_take, hplen2]
    · rw [h] at hplen ⊢
      rw [show modeChannels "LA" = 2 from rfl] at hplen
      obtain ⟨a, b, hab⟩ := List.length_eq_two.mp hplen
      rw [hab]
      rfl
  · intro fs p res hok fc hfc hopen
    obtain ⟨fc', img0', n, hfc', hopen', henc, hsz, hres⟩ :=
      optimize_jpg_ok env fs p none 90 res hok
    have hfc2 : fc' = fc := by rw [hfc] at hfc'; exact (Option.some_inj.mp hfc').symm
    subst hfc2
    have himg2 : img0' = img := by
      rw [hopen] at hopen'
      injection hopen' with h2
      exact h2.symm
    subst himg2
    subst hres
    simp

/-- Witness for C4 at a 1 × 1 fully transparent RGBA image. -/
def imgRGBAW : PILImage :=
  { mode := "RGBA", width := 1, height := 1, data := [[10, 20, 30, 0]], info := [("exif", "x")] }

theorem optimizer_c4_witness : C4Conclusion optEnvW imgRGBAW :=
  optimizer_c4_flatten_white optEnvW imgRGBAW (by decide) rfl (by decide) (Or.inl rfl)

/-! ## Claim C6 -/

/-- The metadata-stripping behavior as the code implements it: PNG and
WEBP outputs are rebuilt from the opened image's raw pixel data — same
mode, same dimensions, pixel-identical — with an empty metadata list;
the JPEG output is rebuilt the same way from the alpha-flattened
conversion of the source, which is the source itself whenever the source
has no alpha or palette channel. -/
def C6Conclusion (env : OptEnv) : Prop :=
  (∀ (fs : FS) (p : PathStr) (o : Option PathStr) (q : Nat) (res : OptResult)
      (fc : FileContent) (img : PILImage),
    fs p = some fc → env.openImage p fc = Except.ok img →
    img.data.length = img.width * img.height →
    optimize_png env fs p o q = Except.ok res →
    res.fs (o.getD p) = some { size := res.newSize,
                               image := { mode := img.mode, width := img.width,
                                          height := img.height, data := img.data, info := [] },
                               params := SaveParams.png true 9 }) ∧
  (∀ (fs : FS) (p : PathStr) (o : Option PathStr) (q : Nat) (res : OptResult)
      (fc : FileContent) (img : PILImage),
    fs p = some fc → env.openImage p fc = Except.ok img →
    img.data.length = img.width * img.height →
    optimize_webp env fs p o q = Except.ok res →
    res.fs (o.getD p) = some { size := res.newSize,
                               image := { mode := img.mode, width := img.width,
                                          height := img.height, data := img.data, info := [] },
                               params := SaveParams.webp q 6 }) ∧
  (∀ (fs : FS) (p : PathStr) (o : Option PathStr) (q : Nat) (res : OptResult)
      (fc : FileContent) (img : PILImage),
    fs p = some fc → env.openImage p fc = Except.ok img →
    (flattenForJPEG env img).data.length
      = (flattenForJPEG env img).width * (flattenForJPEG env img).height →
    optimize_jpg env fs p o q = Except.ok res →
    res.fs (o.getD p) = some { size := res.newSize,
                               image := { mode := (flattenForJPEG env img).mode,
                                          width := (flattenForJPEG env img).width,
                                          height := (flattenForJPEG env img).height,
                                          data := (flattenForJPEG env img).data, info := [] },
                               params := SaveParams.jpeg q true true }) ∧
  (∀ img : PILImage, img.mode ∉ (["RGBA", "LA", "P"] : List String) → flattenForJPEG env img = img)

/-- C6 (amended): every optimizer output is rebuilt from raw pixel data
with no metadata; for PNG and WEBP it is pixel-identical to the opened
source with the same mode and dimensions, while for JPEG it is
pixel-identical to the alpha-flattened conversion of the source — which
is the source itself exactly when the source has no alpha or palette
channel. -/
theorem optimizer_c6_strip_rebuild (env : OptEnv) : C6Conclusion env := by
  refine ⟨?_, ?_, ?_, fun img hmode => flattenForJPEG_id env img hmode⟩
  · intro fs p o q res fc img hfc hopen hlen hok
    obtain ⟨fc', img', n, hfc', hopen', henc, hsz, hres⟩ := optimize_png_ok env fs p o q res hok
    have hfc2 : fc' = fc := by rw [hfc] at hfc'; exact (Option.some_inj.mp hfc').symm
    subst hfc2
    have himg2 : img' = img := by
      rw [hopen] at hopen'
      injection hopen' with h2
      exact h2.symm
    subst himg2
    subst hres
    simp [putdata_pilNew img'.mode img'.width img'.height (zeroPixel img'.mode) img'.data hlen]
  · intro fs p o q res fc img hfc hopen hlen hok
    obtain ⟨fc', img', n, hfc', hopen', henc, hsz, hres⟩ := optimize_webp_ok env fs p o q res hok
    have hfc2 : fc' = fc := by rw [hfc] at hfc'; exact (Option.some_inj.mp hfc').symm
    subst hfc2
    have himg2 : img' = img := by
      rw [hopen] at hopen'
      injection hopen' with h2
      exact h2.symm
    subst himg2
    subst hres
    simp [putdata_pilNew img'.mode img'.width img'.height (zeroPixel img'.mode) img'.data hlen]
  · intro fs p o q res fc img hfc hopen hlen hok
    obtain ⟨fc', img', n, hfc', hopen', henc, hsz, hres⟩ := optimize_jpg_ok env fs p o q res hok
    have hfc2 : fc' = fc := by rw [hfc] at hfc'; exact (Option.some_inj.mp hfc').symm
    subst hfc2
    have himg2 : img' = img := by
      rw [hopen] at hopen'
      injection hopen' with h2
      exact h2.symm
    subst himg2
    subst hres
    simp [putdata_pilNew (flattenForJPEG env img').mode (flattenForJPEG env img').width
      (flattenForJPEG env img').height (zeroPixel (flattenForJPEG env img').mode)
      (flattenForJPEG env img').data hlen]

def fsJpgW : FS := fun p =>
  if p = "public/cache-mcclure-og.jpg" then
    some { size := 10, image := imgRGBAW, params := SaveParams.jpeg 80 false false }
  else none

/-- C6 counterexample: processing a transparent RGBA source through the
JPEG path succeeds but the written image has mode RGB, not the source's
RGBA, and its pixel data is the flattened white, not the source's — so
the claim's "same mode, pixel-identical content" fails for an image the
optimizer processes. -/
theorem optimizer_c6_counterexample :
    ((optimize_jpg optEnvW fsJpgW "public/cache-mcclure-og.jpg" none 90).toOption.map
      (fun res => (res.fs "public/cache-mcclure-og.jpg").map (fun fc => fc.image.mode)))
      = some (some "RGB") ∧
    imgRGBAW.mode = "RGBA" ∧
    ((optimize_jpg optEnvW fsJpgW "public/cache-mcclure-og.jpg" none 90).toOption.map
      (fun res => (res.fs "public/cache-mcclure-og.jpg").map (fun fc => fc.image.data)))
      = some (some [[255, 255, 255]]) ∧
    imgRGBAW.data = [[10, 20, 30, 0]] :=
  ⟨rfl, rfl, rfl, rfl⟩

def resPngW : OptResult :=
  { fs := fun x =>
      if x = firstEntryPath then
        some { size := 3,
               image := { mode := "RGB", width := 1, height := 1, data := [[1, 2, 3]], info := [] },
               params := SaveParams.png true 9 }
      else fs5W x,
    out := [OutMsg.optimizing firstEntryPath] ++ savingsLines 10 3,
    newSize := 3 }

lemma optimize_png_fs5W :
    optimize_png optEnvW fs5W firstEntryPath none 85 = Except.ok resPngW := rfl

/-- Witness for C6 (amended) at a concrete PNG run: the rewritten file
holds exactly the source's pixels with empty metadata. -/
theorem optimizer_c6_witness :
    resPngW.fs ((none : Option PathStr).getD firstEntryPath)
      = some { size := resPngW.newSize,
               image := { mode := imgRgbW.mode, width := imgRgbW.width, height := imgRgbW.height,
                          data := imgRgbW.data, info := [] },
               params := SaveParams.png true 9 } :=
  (optimizer_c6_strip_rebuild optEnvW).1 fs5W firstEntryPath none 85 resPngW fcW imgRgbW
    rfl rfl rfl optimize_png_fs5W
